import Mathlib

/-!
Verification of the replication-topology utilities: the GTID skip engine
(`mysqlslavetrx` and the skip computation it drives), and the replication
setup entry points in `setup_rpl` (`setup_replication`,
`start_ms_replication`).

The shallow embedding below follows the Python sources line by line for the
code that ships in this repository; collaborator routines that live outside
the repository snapshot (the `Replication` check methods, the skip engine
body, the GTID format checker) are modelled from the specification, each one
marked `Modelled from the spec:` in its doc comment.
-/

/- ### GTID sets -/

/-- A GTID interval of transaction numbers, inclusive on both ends.
Modelled from the spec: a `GtidSet` maps a source UUID to an ordered set of
non-overlapping transaction-number ranges. -/
structure GtidRange where
  start : Nat
  stop : Nat
  deriving DecidableEq

/-- Bool test: transaction number `n` lies in range `r`. -/
def GtidRange.holds (r : GtidRange) (n : Nat) : Bool :=
  decide (r.start ≤ n) && decide (n ≤ r.stop)

/-- Bool test: some range in the list holds `n`. -/
def rangesContain (rs : List GtidRange) (n : Nat) : Bool :=
  rs.any (fun r => r.holds n)

/-- Modelled from the spec: a GTID set is a mapping from source-server UUID
to a list of transaction-number ranges. -/
abbrev GtidSet := List (String × List GtidRange)

/-- Bool test: the GTID `u:n` belongs to the set. -/
def GtidSet.holdsGtid (g : GtidSet) (u : String) (n : Nat) : Bool :=
  g.any (fun e => e.1 == u && rangesContain e.2 n)

/-- Modelled from the spec: per-source-UUID range subtraction.  The parts of
`r` that survive removing `cut` (at most two ranges, in ascending order). -/
def subtractRange (r cut : GtidRange) : List GtidRange :=
  (if r.start < cut.start then [⟨r.start, min r.stop (cut.start - 1)⟩] else [])
    ++ (if cut.stop < r.stop then [⟨max r.start (cut.stop + 1), r.stop⟩] else [])

/-- Remove one range from every range of a list. -/
def subtractAll (rs : List GtidRange) (cut : GtidRange) : List GtidRange :=
  match rs with
  | [] => []
  | r :: rest => subtractRange r cut ++ subtractAll rest cut

/-- Remove every range of `cuts` from every range of `rs`. -/
def subtractRanges (rs : List GtidRange) : List GtidRange → List GtidRange
  | [] => rs
  | cut :: cuts => subtractRanges (subtractAll rs cut) cuts

/-- All ranges the set records for a given source UUID. -/
def executedRangesFor (g : GtidSet) (u : String) : List GtidRange :=
  match g with
  | [] => []
  | e :: rest =>
      if e.1 == u then e.2 ++ executedRangesFor rest u else executedRangesFor rest u

/-- Modelled from the spec: `toSkip = requested − executed`, the set
difference computed by per-source-UUID range subtraction. -/
def gtidSubtract (request executed : GtidSet) : GtidSet :=
  request.map (fun e => (e.1, subtractRanges e.2 (executedRangesFor executed e.1)))

/-- Modelled from the spec: injecting an empty transaction for each skipped
GTID advances the executed set by exactly those GTIDs. -/
def applySkip (executed toSkip : GtidSet) : GtidSet :=
  executed ++ toSkip

lemma rangesContain_append (a b : List GtidRange) (n : Nat) :
    rangesContain (a ++ b) n = (rangesContain a n || rangesContain b n) := by
  simp [rangesContain, List.any_append]

lemma rangesContain_cons (r : GtidRange) (rest : List GtidRange) (n : Nat) :
    rangesContain (r :: rest) n = (r.holds n || rangesContain rest n) := by
  simp [rangesContain]

lemma rangesContain_subtractRange (r cut : GtidRange) (n : Nat) :
    rangesContain (subtractRange r cut) n = (r.holds n && !(cut.holds n)) := by
  unfold subtractRange
  by_cases h1 : r.start < cut.start <;> by_cases h2 : cut.stop < r.stop <;>
    simp only [h1, h2, if_true, if_false, ite_true, ite_false, rangesContain_append,
      rangesContain_cons, rangesContain, List.any_nil, GtidRange.holds] <;>
  · cases hb : decide (r.start ≤ n) && decide (n ≤ r.stop) &&
      !(decide (cut.start ≤ n) && decide (n ≤ cut.stop)) <;>
    simp_all <;> omega

lemma rangesContain_subtractAll (rs : List GtidRange) (cut : GtidRange) (n : Nat) :
    rangesContain (subtractAll rs cut) n = (rangesContain rs n && !(cut.holds n)) := by
  induction rs with
  | nil => simp [subtractAll, rangesContain]
  | cons r rest ih =>
      rw [subtractAll, rangesContain_append, rangesContain_subtractRange, ih,
        rangesContain_cons]
      cases r.holds n <;> cases rangesContain rest n <;> cases cut.holds n <;> rfl

lemma rangesContain_subtractRanges (cuts : List GtidRange) (rs : List GtidRange) (n : Nat) :
    rangesContain (subtractRanges rs cuts) n
      = (rangesContain rs n && !(rangesContain cuts n)) := by
  induction cuts generalizing rs with
  | nil => simp [subtractRanges, rangesContain]
  | cons cut cuts ih =>
      rw [subtractRanges, ih, rangesContain_subtractAll, rangesContain_cons]
      cases rangesContain rs n <;> cases cut.holds n <;> cases rangesContain cuts n <;> rfl

lemma rangesContain_executedRangesFor (g : GtidSet) (u : String) (n : Nat) :
    rangesContain (executedRangesFor g u) n = GtidSet.holdsGtid g u n := by
  induction g with
  | nil => rfl
  | cons e rest ih =>
      rw [executedRangesFor, GtidSet.holdsGtid]
      cases he : (e.1 == u) <;>
        simp [he, rangesContain_append, ih, GtidSet.holdsGtid, List.any_cons]

lemma holdsGtid_cons (e : String × List GtidRange) (rest : GtidSet) (u : String) (n : Nat) :
    GtidSet.holdsGtid (e :: rest) u n
      = ((e.1 == u && rangesContain e.2 n) || GtidSet.holdsGtid rest u n) := by
  simp [GtidSet.holdsGtid]

lemma holdsGtid_gtidSubtract (request executed : GtidSet) (u : String) (n : Nat) :
    GtidSet.holdsGtid (gtidSubtract request executed) u n
      = (GtidSet.holdsGtid request u n && !(GtidSet.holdsGtid executed u n)) := by
  induction request with
  | nil => rfl
  | cons e rest ih =>
      have hmap : gtidSubtract (e :: rest) executed
          = (e.1, subtractRanges e.2 (executedRangesFor executed e.1))
              :: gtidSubtract rest executed := rfl
      rw [hmap, holdsGtid_cons, holdsGtid_cons, ih, rangesContain_subtractRanges,
        rangesContain_executedRangesFor]
      cases he : (e.1 == u)
      · simp
      · have heq : e.1 = u := by simpa using he
        simp only [he, heq, Bool.true_and]
        cases rangesContain e.2 n <;> cases GtidSet.holdsGtid executed u n <;>
          cases GtidSet.holdsGtid rest u n <;> rfl

lemma holdsGtid_append (a b : GtidSet) (u : String) (n : Nat) :
    GtidSet.holdsGtid (a ++ b) u n
      = (GtidSet.holdsGtid a u n || GtidSet.holdsGtid b u n) := by
  simp [GtidSet.holdsGtid, List.any_append]

/- ### The GTID skip engine -/

/-- Modelled from the spec: `skip_subordinates_trx` (the skip engine body is
not part of this source snapshot; only its caller `mysqlslavetrx` is).  For
each subordinate, independently: fetch its executed GTID set, compute
`toSkip = request − executed`; in dry-run mode report `toSkip` and leave the
subordinate untouched, otherwise inject an empty transaction per skipped
GTID, advancing the executed set by `toSkip`.  Each result pairs the
reported `toSkip` with the subordinate's executed set after the run. -/
def skip_subordinates_trx (request : GtidSet) (subordinates : List GtidSet)
    (dry_run : Bool) : List (GtidSet × GtidSet) :=
  subordinates.map (fun executed =>
    let toSkip := gtidSubtract request executed
    (toSkip, if dry_run then executed else applySkip executed toSkip))

/-- Modelled from the spec: `check_gtid_set_format` rejects reversed ranges
(start > stop) and overlapping or unsorted ranges for a source UUID. -/
def validRanges : List GtidRange → Bool
  | [] => true
  | [r] => decide (r.start ≤ r.stop)
  | r :: s :: rest =>
      decide (r.start ≤ r.stop) && decide (r.stop < s.start) && validRanges (s :: rest)

/-- Modelled from the spec: the GTID-set format check run by `mysqlslavetrx`
before any subordinate work. -/
def check_gtid_set_format (g : GtidSet) : Bool :=
  g.all (fun e => validRanges e.2)

/-- Observable steps of a `mysqlslavetrx` run, in order. -/
inductive TrxEvent where
  | gtidFormatChecked
  | subordinatesResolved
  | subordinateContacted (idx : Nat)
  deriving DecidableEq

/-- The `mysqlslavetrx` main flow: check the GTID set format first; only on
success resolve the subordinate connections and run the skip engine over
every subordinate.  Returns the event trace and either a format error or the
per-subordinate skip results. -/
def mysqlslavetrx_run (request : GtidSet) (subordinates : List GtidSet)
    (dry_run : Bool) : List TrxEvent × Except String (List (GtidSet × GtidSet)) :=
  if check_gtid_set_format request then
    (TrxEvent.gtidFormatChecked :: TrxEvent.subordinatesResolved ::
        (List.range subordinates.length).map TrxEvent.subordinateContacted,
      Except.ok (skip_subordinates_trx request subordinates dry_run))
  else
    ([TrxEvent.gtidFormatChecked], Except.error "GtidFormatError")

/-- Claim C2: for every requested GTID set and every subordinate executed
set, the computed `toSkip` is exactly the set difference `request −
executed` (GTID by GTID); hence `executed` and `toSkip` are disjoint,
`toSkip ∪ executed` covers `request`, and re-running the skip computation
after a successful (non-dry-run) application yields an empty `toSkip`. -/
theorem skip_toSkip_is_set_difference (request executed : GtidSet) (u : String) (n : Nat) :
    GtidSet.holdsGtid (gtidSubtract request executed) u n
        = (GtidSet.holdsGtid request u n && !(GtidSet.holdsGtid executed u n))
    ∧ (GtidSet.holdsGtid executed u n
        && GtidSet.holdsGtid (gtidSubtract request executed) u n) = false
    ∧ (GtidSet.holdsGtid request u n
        && !(GtidSet.holdsGtid (gtidSubtract request executed) u n
              || GtidSet.holdsGtid executed u n)) = false
    ∧ GtidSet.holdsGtid
        (gtidSubtract request (applySkip executed (gtidSubtract request executed))) u n
        = false := by
  have h := holdsGtid_gtidSubtract request executed u n
  refine ⟨h, ?_, ?_, ?_⟩
  · rw [h]
    cases GtidSet.holdsGtid request u n <;> cases GtidSet.holdsGtid executed u n <;> rfl
  · rw [h]
    cases GtidSet.holdsGtid request u n <;> cases GtidSet.holdsGtid executed u n <;> rfl
  · rw [holdsGtid_gtidSubtract, applySkip, holdsGtid_append, h]
    cases GtidSet.holdsGtid request u n <;> cases GtidSet.holdsGtid executed u n <;> rfl

/-- Claim C3: a dry run of the skip engine reports the computed `toSkip`
for every subordinate but changes no subordinate's executed GTID set. -/
theorem skip_dry_run_is_pure (request : GtidSet) (subordinates : List GtidSet) :
    (skip_subordinates_trx request subordinates true).map Prod.snd = subordinates
    ∧ (skip_subordinates_trx request subordinates true).map Prod.fst
        = subordinates.map (fun executed => gtidSubtract request executed) := by
  constructor
  · induction subordinates with
    | nil => rfl
    | cons s rest ih => simpa [skip_subordinates_trx] using ih
  · simp [skip_subordinates_trx]

/-- Claim C6: a malformed GTID set makes `mysqlslavetrx` fail fast with the
GTID format error: the trace stops at the format check, so no subordinate
connection is resolved and no subordinate is contacted. -/
theorem malformed_gtid_fails_fast (request : GtidSet) (subordinates : List GtidSet)
    (dry_run : Bool) (h : check_gtid_set_format request = false) :
    (mysqlslavetrx_run request subordinates dry_run).2 = Except.error "GtidFormatError"
    ∧ (mysqlslavetrx_run request subordinates dry_run).1 = [TrxEvent.gtidFormatChecked] := by
  constructor <;> simp [mysqlslavetrx_run, h]

/-- Witness for C6 at a concrete malformed input: the reversed range 12-10
fails the format check, and the run stops with the format error. -/
theorem malformed_gtid_fails_fast_witness :
    check_gtid_set_format [("u1", [⟨12, 10⟩])] = false
    ∧ (mysqlslavetrx_run [("u1", [⟨12, 10⟩])] [[("u1", [⟨1, 5⟩])]] false).2
        = Except.error "GtidFormatError"
    ∧ (mysqlslavetrx_run [("u1", [⟨12, 10⟩])] [[("u1", [⟨1, 5⟩])]] false).1
        = [TrxEvent.gtidFormatChecked] :=
  ⟨by decide,
    (malformed_gtid_fails_fast [("u1", [⟨12, 10⟩])] [[("u1", [⟨1, 5⟩])]] false (by decide)).1,
    (malformed_gtid_fails_fast [("u1", [⟨12, 10⟩])] [[("u1", [⟨1, 5⟩])]] false (by decide)).2⟩

/- ### Replication setup (`setup_rpl.py`) -/

/-- Observable steps of one `setup_replication` run, in order: console
output, a pre-flight check being executed, the subordinate-side
configuration being attempted (`rpl.setup`), and the optional test phase. -/
inductive SetupEvent where
  | printed (msg : String)
  | checkRun (name : String)
  | configureAttempted
  | testRun (db : String)
  deriving DecidableEq

/-- Outcome of one `setup_replication` run: the ordered event trace and the
error raised, if any (`none` means the run completed). -/
structure SetupResult where
  events : List SetupEvent
  error : Option String
  deriving DecidableEq

/-- Print each finding of a check, as the source does with a for loop. -/
def printAll (msgs : List String) : List SetupEvent :=
  msgs.map SetupEvent.printed

/-- Prints emitted only when verbosity is positive. -/
def vprint (verbosity : Nat) (msgs : List String) : List SetupEvent :=
  if verbosity > 0 then msgs.map SetupEvent.printed else []

/-- The pre-flight phase of `setup_replication`, exactly as in the source:
five checks in a fixed order, the findings of the first four printed, the
verbosity-gated prints in between (interpolated server values elided from
the fixed message texts), and the unconditional binlog banner.  The binlog
findings are deliberately absent: the source never prints them. -/
def preflightEvents (idF uuidF innoF engF : List String) (verbosity : Nat) :
    List SetupEvent :=
  [SetupEvent.checkRun "check_server_ids"] ++ printAll idF
    ++ vprint verbosity ["# main id", "#  subordinate id"]
    ++ [SetupEvent.checkRun "check_server_uuids"] ++ printAll uuidF
    ++ vprint verbosity ["# main uuid", "#  subordinate uuid"]
    ++ vprint verbosity ["# Checking InnoDB statistics for type and version conflicts."]
    ++ [SetupEvent.checkRun "check_innodb_compatibility"] ++ printAll innoF
    ++ vprint verbosity ["# Checking storage engines..."]
    ++ [SetupEvent.checkRun "check_storage_engines"] ++ printAll engF
    ++ [SetupEvent.printed "# Checking for binary logging on main...",
        SetupEvent.checkRun "check_main_binlog"]

/-- The body of `setup_replication` as the source writes it, parameterized
over the results its collaborators return: the findings of the five
`Replication` checks, whether `rpl.setup(rpl_user, 10)` succeeded, the
verbosity, and the optional test database.  If the binlog check returns any
finding, `UtilError(errors[0])` is raised before the subordinate-side
configuration; otherwise configuration is attempted and its failure raises
`UtilError("Cannot setup replication.")`. -/
def setup_replication_core (idF uuidF innoF engF binlogF : List String)
    (setupOk : Bool) (verbosity : Nat) (test_db : Option String) : SetupResult :=
  let pre := preflightEvents idF uuidF innoF engF verbosity
  match binlogF with
  | e :: _ => { events := pre, error := some e }
  | [] =>
      let cfg := pre ++ [SetupEvent.printed "# Setting up replication...",
        SetupEvent.configureAttempted]
      if setupOk then
        match test_db with
        | some db =>
            { events := cfg ++ [SetupEvent.testRun db, SetupEvent.printed "# ...done."],
              error := none }
        | none => { events := cfg ++ [SetupEvent.printed "# ...done."], error := none }
      else { events := cfg, error := some "Cannot setup replication." }

/-- The server attributes the pre-flight checks read. -/
structure ServerInfo where
  server_id : Nat
  server_uuid : String
  innodb_version : String
  storage_engines : List String
  binlog_enabled : Bool
  deriving DecidableEq

/-- The single server-id collision finding, naming both servers. -/
def serverIdCollisionMsg (m s : ServerInfo) : String :=
  "ERROR: the main server_id " ++ toString m.server_id
    ++ " equals the subordinate server_id " ++ toString s.server_id ++ "."

/-- Modelled from the spec: `Replication.check_server_ids` (not in this
source snapshot) — the server-id uniqueness check yields exactly one finding
naming both servers when main and subordinate share a server_id, and no
finding otherwise. -/
def check_server_ids (m s : ServerInfo) : List String :=
  if m.server_id = s.server_id then [serverIdCollisionMsg m s] else []

/-- The single server-uuid collision finding, naming both servers. -/
def serverUuidCollisionMsg (m s : ServerInfo) : String :=
  "ERROR: the main uuid " ++ m.server_uuid
    ++ " equals the subordinate uuid " ++ s.server_uuid ++ "."

/-- Modelled from the spec: `Replication.check_server_uuids` — the UUID
uniqueness check fails when the two servers share a server_uuid. -/
def check_server_uuids (m s : ServerInfo) : List String :=
  if m.server_uuid = s.server_uuid then [serverUuidCollisionMsg m s] else []

/-- Modelled from the spec: `Replication.check_innodb_compatibility` —
compares InnoDB version metadata and reports a warning on mismatch. -/
def check_innodb_compatibility (m s : ServerInfo) : List String :=
  if m.innodb_version = s.innodb_version then []
  else ["WARNING: InnoDB version mismatch between main and subordinate."]

/-- Modelled from the spec: `Replication.check_storage_engines` — reports a
finding for each storage engine of the main that the subordinate lacks. -/
def check_storage_engines (m s : ServerInfo) : List String :=
  (m.storage_engines.filter (fun e => !(s.storage_engines.contains e))).map
    (fun e => "WARNING: storage engine " ++ e ++ " is not available on the subordinate.")

/-- Modelled from the spec: `Replication.check_main_binlog` — fails exactly
when the main does not have binary logging enabled. -/
def check_main_binlog (m : ServerInfo) : List String :=
  if m.binlog_enabled then [] else ["Main must have binary logging turned on."]

/-- Modelled from the spec: `Replication.setup` — a bounded number of start
attempts with a short backoff; it succeeds exactly when some attempt within
the budget brings replication to a running state. -/
def rplSetup (attemptSucceeds : Nat → Bool) (attempts : Nat) : Bool :=
  (List.range attempts).any attemptSucceeds

/-- `setup_replication` over a resolved main/subordinate pair: the source
body (`setup_replication_core`) applied to the collaborator results, with
the attempt budget 10 the source passes to `rpl.setup`. -/
def setup_replication (m s : ServerInfo) (attemptSucceeds : Nat → Bool)
    (verbosity : Nat) (test_db : Option String) : SetupResult :=
  setup_replication_core (check_server_ids m s) (check_server_uuids m s)
    (check_innodb_compatibility m s) (check_storage_engines m s)
    (check_main_binlog m) (rplSetup attemptSucceeds 10) verbosity test_db

/-- The names of the checks a trace runs, in order. -/
def checkNames : List SetupEvent → List String
  | [] => []
  | SetupEvent.checkRun n :: rest => n :: checkNames rest
  | SetupEvent.printed _ :: rest => checkNames rest
  | SetupEvent.configureAttempted :: rest => checkNames rest
  | SetupEvent.testRun _ :: rest => checkNames rest

lemma checkNames_append (a b : List SetupEvent) :
    checkNames (a ++ b) = checkNames a ++ checkNames b := by
  induction a with
  | nil => rfl
  | cons e rest ih => cases e <;> simp [checkNames, ih]

lemma checkNames_printAll (msgs : List String) : checkNames (printAll msgs) = [] := by
  induction msgs with
  | nil => rfl
  | cons m rest ih => simpa [printAll, checkNames] using ih

lemma checkNames_vprint (v : Nat) (msgs : List String) :
    checkNames (vprint v msgs) = [] := by
  unfold vprint
  split
  · exact checkNames_printAll msgs
  · rfl

lemma checkNames_preflight (idF uuidF innoF engF : List String) (v : Nat) :
    checkNames (preflightEvents idF uuidF innoF engF v)
      = ["check_server_ids", "check_server_uuids", "check_innodb_compatibility",
          "check_storage_engines", "check_main_binlog"] := by
  simp [preflightEvents, checkNames_append, checkNames_printAll, checkNames_vprint,
    checkNames]

lemma configure_not_mem_printAll (msgs : List String) :
    SetupEvent.configureAttempted ∉ printAll msgs := by
  simp [printAll]

lemma configure_not_mem_vprint (v : Nat) (msgs : List String) :
    SetupEvent.configureAttempted ∉ vprint v msgs := by
  unfold vprint
  split <;> simp

lemma configure_not_mem_preflight (idF uuidF innoF engF : List String) (v : Nat) :
    SetupEvent.configureAttempted ∉ preflightEvents idF uuidF innoF engF v := by
  simp [preflightEvents, List.mem_append, configure_not_mem_printAll,
    configure_not_mem_vprint, printAll, vprint]

lemma configure_mem_core (idF uuidF innoF engF binlogF : List String)
    (setupOk : Bool) (v : Nat) (db : Option String) :
    SetupEvent.configureAttempted
        ∈ (setup_replication_core idF uuidF innoF engF binlogF setupOk v db).events
      ↔ binlogF = [] := by
  cases binlogF with
  | cons e rest =>
      simp only [setup_replication_core]
      exact ⟨fun h => absurd h (configure_not_mem_preflight idF uuidF innoF engF v),
        fun h => by simp at h⟩
  | nil =>
      cases setupOk <;> cases db <;>
        simp [setup_replication_core, List.mem_append]

lemma mem_core_of_mem_preflight (idF uuidF innoF engF binlogF : List String)
    (setupOk : Bool) (v : Nat) (db : Option String) (x : SetupEvent)
    (h : x ∈ preflightEvents idF uuidF innoF engF v) :
    x ∈ (setup_replication_core idF uuidF innoF engF binlogF setupOk v db).events := by
  cases binlogF with
  | cons e rest => simpa [setup_replication_core] using h
  | nil =>
      cases setupOk <;> cases db <;>
        simp [setup_replication_core, List.mem_append, h]

lemma range_any_congr (f g : Nat → Bool) (k : Nat)
    (h : ∀ i, i < k → f i = g i) :
    (List.range k).any f = (List.range k).any g := by
  induction k with
  | zero => rfl
  | succ k ih =>
      rw [List.range_succ]
      simp only [List.any_append, List.any_cons, List.any_nil]
      rw [ih (fun i hi => h i (Nat.lt_succ_of_lt hi)), h k (Nat.lt_succ_self k)]

/-- Claim C1: `setup_replication` aborts during the pre-flight phase (an
error is raised and the subordinate-side configuration is never attempted)
exactly when the binlog check returns a non-empty findings list; findings
from the other four checks never cause a pre-flight abort by themselves. -/
theorem preflight_abort_iff_binlog_findings (idF uuidF innoF engF binlogF : List String)
    (setupOk : Bool) (v : Nat) (db : Option String) :
    ((setup_replication_core idF uuidF innoF engF binlogF setupOk v db).error.isSome
        ∧ SetupEvent.configureAttempted
            ∉ (setup_replication_core idF uuidF innoF engF binlogF setupOk v db).events)
      ↔ binlogF ≠ [] := by
  cases binlogF with
  | nil =>
      simp only [ne_eq, not_true_eq_false, iff_false, not_and]
      intro _ hmem
      exact hmem ((configure_mem_core idF uuidF innoF engF [] setupOk v db).mpr rfl)
  | cons e rest =>
      simp only [setup_replication_core, Option.isSome_some, ne_eq, reduceCtorEq,
        not_false_eq_true, iff_true, true_and]
      exact configure_not_mem_preflight idF uuidF innoF engF v

lemma checkNames_core (idF uuidF innoF engF binlogF : List String) (setupOk : Bool)
    (v : Nat) (db : Option String) :
    checkNames (setup_replication_core idF uuidF innoF engF binlogF setupOk v db).events
      = ["check_server_ids", "check_server_uuids", "check_innodb_compatibility",
          "check_storage_engines", "check_main_binlog"] := by
  cases binlogF with
  | cons e rest =>
      have h : (setup_replication_core idF uuidF innoF engF (e :: rest) setupOk v db).events
          = preflightEvents idF uuidF innoF engF v := rfl
      rw [h, checkNames_preflight]
  | nil =>
      cases setupOk with
      | false =>
          have h : (setup_replication_core idF uuidF innoF engF [] false v db).events
              = preflightEvents idF uuidF innoF engF v
                  ++ [SetupEvent.printed "# Setting up replication...",
                      SetupEvent.configureAttempted] := rfl
          rw [h, checkNames_append, checkNames_preflight]
          rfl
      | true =>
          cases db with
          | none =>
              have h : (setup_replication_core idF uuidF innoF engF [] true v none).events
                  = (preflightEvents idF uuidF innoF engF v
                      ++ [SetupEvent.printed "# Setting up replication...",
                          SetupEvent.configureAttempted])
                    ++ [SetupEvent.printed "# ...done."] := rfl
              rw [h, checkNames_append, checkNames_append, checkNames_preflight]
              rfl
          | some d =>
              have h : (setup_replication_core idF uuidF innoF engF [] true v (some d)).events
                  = (preflightEvents idF uuidF innoF engF v
                      ++ [SetupEvent.printed "# Setting up replication...",
                          SetupEvent.configureAttempted])
                    ++ [SetupEvent.testRun d, SetupEvent.printed "# ...done."] := rfl
              rw [h, checkNames_append, checkNames_append, checkNames_preflight]
              rfl

lemma core_error_eq (idF uuidF innoF engF binlogF : List String) (setupOk : Bool)
    (v : Nat) (db : Option String) :
    (setup_replication_core idF uuidF innoF engF binlogF setupOk v db).error
      = (match binlogF with
          | e :: _ => some e
          | [] => if setupOk then none else some "Cannot setup replication.") := by
  cases binlogF with
  | cons e rest => rfl
  | nil => cases setupOk <;> cases db <;> rfl

lemma core_error_verbosity (idF uuidF innoF engF binlogF : List String) (setupOk : Bool)
    (db : Option String) (v1 v2 : Nat) :
    (setup_replication_core idF uuidF innoF engF binlogF setupOk v1 db).error
      = (setup_replication_core idF uuidF innoF engF binlogF setupOk v2 db).error := by
  rw [core_error_eq, core_error_eq]

/-- Claim C5: every run of `setup_replication` executes the five pre-flight
checks in the fixed source order: server-id uniqueness, server-UUID
uniqueness, InnoDB compatibility, storage engines, binary logging. -/
theorem preflight_checks_fixed_order (m s : ServerInfo) (attemptSucceeds : Nat → Bool)
    (v : Nat) (db : Option String) :
    checkNames (setup_replication m s attemptSucceeds v db).events
      = ["check_server_ids", "check_server_uuids", "check_innodb_compatibility",
          "check_storage_engines", "check_main_binlog"] := by
  unfold setup_replication
  exact checkNames_core _ _ _ _ _ _ _ _

/-- Claim C8: two runs of `setup_replication` that differ only in verbosity
raise the same error (or both none), run the same checks in the same order,
and agree on whether the subordinate-side configuration is attempted;
verbosity changes only the printed output. -/
theorem verbosity_never_changes_outcome (m s : ServerInfo) (attemptSucceeds : Nat → Bool)
    (db : Option String) (v1 v2 : Nat) :
    (setup_replication m s attemptSucceeds v1 db).error
        = (setup_replication m s attemptSucceeds v2 db).error
    ∧ checkNames (setup_replication m s attemptSucceeds v1 db).events
        = checkNames (setup_replication m s attemptSucceeds v2 db).events
    ∧ (SetupEvent.configureAttempted ∈ (setup_replication m s attemptSucceeds v1 db).events
        ↔ SetupEvent.configureAttempted ∈ (setup_replication m s attemptSucceeds v2 db).events) := by
  refine ⟨?_, ?_, ?_⟩
  · unfold setup_replication
    exact core_error_verbosity _ _ _ _ _ _ _ v1 v2
  · unfold setup_replication
    rw [checkNames_core, checkNames_core]
  · unfold setup_replication
    rw [configure_mem_core, configure_mem_core]

/-- Claim C10: when the binlog check returns more than one finding, the
raised error carries only the first finding; the rest are discarded — the
run is identical whatever the remaining findings are, and the event trace
(which never prints binlog findings) is exactly the pre-flight trace. -/
theorem binlog_error_keeps_only_first_finding (idF uuidF innoF engF : List String)
    (e1 : String) (rest rest2 : List String) (setupOk : Bool) (v : Nat)
    (db : Option String) :
    (setup_replication_core idF uuidF innoF engF (e1 :: rest) setupOk v db).error = some e1
    ∧ setup_replication_core idF uuidF innoF engF (e1 :: rest) setupOk v db
        = setup_replication_core idF uuidF innoF engF (e1 :: rest2) setupOk v db
    ∧ (setup_replication_core idF uuidF innoF engF (e1 :: rest) setupOk v db).events
        = preflightEvents idF uuidF innoF engF v :=
  ⟨rfl, rfl, rfl⟩

/-- Claim C7: the configuration step uses an attempt budget of exactly 10:
if no attempt among the first ten reaches a running state the run fails
with the error message `Cannot setup replication.`, and the whole run is
insensitive to anything an attempt beyond the tenth would do. -/
theorem setup_retry_budget_is_ten (m s : ServerInfo) (f : Nat → Bool) (v : Nat)
    (db : Option String) (hb : check_main_binlog m = []) :
    ((∀ i, i < 10 → f i = false) →
        (setup_replication m s f v db).error = some "Cannot setup replication.")
    ∧ (∀ g : Nat → Bool, (∀ i, i < 10 → f i = g i) →
        setup_replication m s f v db = setup_replication m s g v db) := by
  constructor
  · intro hf
    have hr : rplSetup f 10 = false := by
      simp only [rplSetup, List.any_eq_false]
      intro i hi
      rw [hf i (by simpa using hi)]
      simp
    unfold setup_replication
    rw [hb, hr]
    rfl
  · intro g hg
    unfold setup_replication
    rw [show rplSetup f 10 = rplSetup g 10 from range_any_congr f g 10 hg]

/-- Witness for C7: with binary logging enabled and every attempt failing,
the run ends with the error `Cannot setup replication.`. -/
theorem setup_retry_budget_is_ten_witness :
    check_main_binlog ⟨1, "uuid-a", "1.0", ["InnoDB"], true⟩ = []
    ∧ (setup_replication ⟨1, "uuid-a", "1.0", ["InnoDB"], true⟩
          ⟨2, "uuid-b", "1.0", ["InnoDB"], true⟩ (fun _ => false) 0 none).error
        = some "Cannot setup replication." :=
  ⟨rfl,
    (setup_retry_budget_is_ten ⟨1, "uuid-a", "1.0", ["InnoDB"], true⟩
        ⟨2, "uuid-b", "1.0", ["InnoDB"], true⟩ (fun _ => false) 0 none rfl).1
      (fun _ _ => rfl)⟩

/-- Counterexample for C4 as stated: with main and subordinate both having
server_id 1 (binary logging enabled, every start attempt succeeding), the
server-id collision finding is produced, yet `setup_replication` does not
abort — it raises no error and proceeds to the subordinate-side
configuration. -/
theorem server_id_collision_no_abort :
    check_server_ids ⟨1, "uuid-a", "1.0", ["InnoDB"], true⟩
        ⟨1, "uuid-b", "1.0", ["InnoDB"], true⟩ ≠ []
    ∧ (setup_replication ⟨1, "uuid-a", "1.0", ["InnoDB"], true⟩
          ⟨1, "uuid-b", "1.0", ["InnoDB"], true⟩ (fun _ => true) 0 none).error = none
    ∧ SetupEvent.configureAttempted
        ∈ (setup_replication ⟨1, "uuid-a", "1.0", ["InnoDB"], true⟩
            ⟨1, "uuid-b", "1.0", ["InnoDB"], true⟩ (fun _ => true) 0 none).events := by
  refine ⟨by decide, ?_, ?_⟩
  · unfold setup_replication
    rw [core_error_eq]
    decide
  · unfold setup_replication
    rw [configure_mem_core]
    decide

/-- Claim C4, amended: for a main and a subordinate sharing a server_id,
the server-id uniqueness check yields exactly one collision finding naming
both servers, and `setup_replication` prints that finding but does not
abort on it: with binary logging enabled on the main it still proceeds to
configure the subordinate. -/
theorem server_id_collision_reported_not_fatal (A B : ServerInfo)
    (attemptSucceeds : Nat → Bool) (v : Nat) (db : Option String)
    (hid : A.server_id = B.server_id) (hb : A.binlog_enabled = true) :
    check_server_ids A B = [serverIdCollisionMsg A B]
    ∧ SetupEvent.printed (serverIdCollisionMsg A B)
        ∈ (setup_replication A B attemptSucceeds v db).events
    ∧ SetupEvent.configureAttempted
        ∈ (setup_replication A B attemptSucceeds v db).events := by
  have hcheck : check_server_ids A B = [serverIdCollisionMsg A B] := by
    simp [check_server_ids, hid]
  refine ⟨hcheck, ?_, ?_⟩
  · unfold setup_replication
    apply mem_core_of_mem_preflight
    simp [preflightEvents, printAll, hcheck, List.mem_append]
  · unfold setup_replication
    rw [configure_mem_core]
    simp [check_main_binlog, hb]

/-- Witness for the amended C4 at server_id 1 on both sides. -/
theorem server_id_collision_reported_not_fatal_witness :
    (⟨1, "uuid-a", "1.0", ["InnoDB"], true⟩ : ServerInfo).server_id
        = (⟨1, "uuid-b", "1.0", ["InnoDB"], true⟩ : ServerInfo).server_id
    ∧ (check_server_ids ⟨1, "uuid-a", "1.0", ["InnoDB"], true⟩
          ⟨1, "uuid-b", "1.0", ["InnoDB"], true⟩
        = [serverIdCollisionMsg ⟨1, "uuid-a", "1.0", ["InnoDB"], true⟩
            ⟨1, "uuid-b", "1.0", ["InnoDB"], true⟩]
      ∧ SetupEvent.printed (serverIdCollisionMsg ⟨1, "uuid-a", "1.0", ["InnoDB"], true⟩
            ⟨1, "uuid-b", "1.0", ["InnoDB"], true⟩)
          ∈ (setup_replication ⟨1, "uuid-a", "1.0", ["InnoDB"], true⟩
              ⟨1, "uuid-b", "1.0", ["InnoDB"], true⟩ (fun _ => true) 0 none).events
      ∧ SetupEvent.configureAttempted
          ∈ (setup_replication ⟨1, "uuid-a", "1.0", ["InnoDB"], true⟩
              ⟨1, "uuid-b", "1.0", ["InnoDB"], true⟩ (fun _ => true) 0 none).events) :=
  ⟨rfl, server_id_collision_reported_not_fatal _ _ (fun _ => true) 0 none rfl rfl⟩

/- ### Multi-source daemon entry point (`start_ms_replication`) -/

/-- Calls `start_ms_replication` makes on the multi-source replication
object, in order. -/
inductive DaemonAction where
  | startDetached
  | startForeground
  | stopDaemon
  | restartDaemon
  | stopReplicationCall
  deriving DecidableEq

/-- The `start_ms_replication` dispatch exactly as in the source: the
daemon option selects detached start, stop, or restart; any other value
(including absent) starts in the foreground, and a keyboard interruption
during foreground operation leads to a `stop_replication` call instead of
propagating. -/
def start_ms_replication (daemon : Option String) (interrupted : Bool) :
    List DaemonAction :=
  if daemon = some "start" then [DaemonAction.startDetached]
  else if daemon = some "stop" then [DaemonAction.stopDaemon]
  else if daemon = some "restart" then [DaemonAction.restartDaemon]
  else if interrupted then [DaemonAction.startForeground, DaemonAction.stopReplicationCall]
  else [DaemonAction.startForeground]

/-- Claim C9: `start_ms_replication` dispatches on the daemon option —
start detached, stop, restart — and for any other value (including absent)
starts in the foreground, where an interruption results in a cooperative
`stop_replication` call. -/
theorem daemon_option_dispatch (d : Option String) (interrupted : Bool)
    (h1 : d ≠ some "start") (h2 : d ≠ some "stop") (h3 : d ≠ some "restart") :
    start_ms_replication (some "start") interrupted = [DaemonAction.startDetached]
    ∧ start_ms_replication (some "stop") interrupted = [DaemonAction.stopDaemon]
    ∧ start_ms_replication (some "restart") interrupted = [DaemonAction.restartDaemon]
    ∧ start_ms_replication d true
        = [DaemonAction.startForeground, DaemonAction.stopReplicationCall]
    ∧ start_ms_replication d false = [DaemonAction.startForeground] := by
  refine ⟨?_, ?_, ?_, ?_, ?_⟩ <;>
    simp [start_ms_replication, h1, h2, h3]

/-- Witness for C9 with the daemon option absent. -/
theorem daemon_option_dispatch_witness :
    (none ≠ some "start") ∧ (none ≠ some "stop") ∧ (none ≠ some "restart")
    ∧ (start_ms_replication (some "start") false = [DaemonAction.startDetached]
      ∧ start_ms_replication (some "stop") false = [DaemonAction.stopDaemon]
      ∧ start_ms_replication (some "restart") false = [DaemonAction.restartDaemon]
      ∧ start_ms_replication none true
          = [DaemonAction.startForeground, DaemonAction.stopReplicationCall]
      ∧ start_ms_replication none false = [DaemonAction.startForeground]) :=
  ⟨by decide, by decide, by decide,
    daemon_option_dispatch none false (by decide) (by decide) (by decide)⟩
